import Mathlib

/-!
Verification development for the github-pr-bypass-checker service.

The definitions below are a shallow embedding of the JavaScript sources:
  src/app.js                  (webhook processing and the dedup set)
  src/handlers/pullRequest.js (pull-request handling, aggregation, formatting)
  src/utils/github.js         (Octokit client creation and rule-suite queries)

JavaScript values that may be undefined are modelled as Option; JavaScript
truthiness on strings (undefined and the empty string are falsy) is the
function jsTruthy below. Network interactions are modelled by passing the
remote system in explicitly: the outcome of each HTTP request is a value of
ReqOutcome supplied by a function from requests to outcomes, and the calls a
handler attempts are returned as an explicit trace.
-/

namespace BypassChecker

/-- Truthiness of a possibly-absent JavaScript string: undefined and the
empty string are falsy, every other string is truthy. -/
def jsTruthy : Option String → Bool
  | none => false
  | some s => !s.isEmpty

/-- Rendering of a possibly-absent string in a JavaScript template literal:
undefined renders as the text undefined. -/
def jsStr : Option String → String
  | none => "undefined"
  | some s => s

/-- One rule-suite evaluation record as returned by the remote API
(the fields read by pullRequest.js and github.js). Absent fields are none. -/
structure RuleSuite where
  before_sha : Option String
  after_sha : Option String
  status : Option String
  result : Option String
  actor_name : Option String
  pushed_at : Option String
  deriving DecidableEq, Repr

/-- Body shape of a rule-suites response: a bare array, an object wrapping an
array under rule_suites, or anything else (github.js lines 100-109, 168-182). -/
inductive ResponseData where
  | list (rs : List RuleSuite)
  | wrapped (rs : List RuleSuite)
  | other
  deriving DecidableEq, Repr

/-- Outcome of one HTTP request: a successful response body, or a rejection
carrying an optional HTTP status (none models a plain network failure). -/
inductive ReqOutcome where
  | ok (data : ResponseData)
  | err (status : Option Nat)
  deriving DecidableEq, Repr

/-- Errors a modelled JavaScript function can raise. referenceError models a
ReferenceError raised by reading an identifier that is not in scope. -/
inductive JsError where
  | error (msg : String)
  | referenceError (name : String)
  deriving DecidableEq, Repr

/-- One rule-suites API request: endpoint path plus the params object built in
github.js (ref, rule_suite_result, and for the org endpoint repository_name). -/
structure ApiRequest where
  path : String
  ref : String
  rule_suite_result : String
  repository_name : Option String
  deriving DecidableEq, Repr

/-- Endpoint path built at github.js line 84. -/
def repoRuleSuitesPath (owner repo : String) : String :=
  "/repos/" ++ owner ++ "/" ++ repo ++ "/rulesets/rule-suites"

/-- Endpoint path built at github.js line 152. -/
def orgRuleSuitesPath (owner : String) : String :=
  "/orgs/" ++ owner ++ "/rulesets/rule-suites"

/-- The single request issued by checkRepoBypassedRuleSuites (github.js 84-96). -/
def repoRequest (owner repo ref : String) : ApiRequest :=
  ⟨repoRuleSuitesPath owner repo, ref, "bypass", none⟩

/-- The single request issued by checkOrgBypassedRulesSuites (github.js 152-164);
the handler passes null as the repository filter (pullRequest.js line 86). -/
def orgRequest (owner : String) (repoFilter : Option String) (ref : String) : ApiRequest :=
  ⟨orgRuleSuitesPath owner, ref, "bypass", repoFilter⟩

/-- Normalisation of the two accepted response shapes to one list
(github.js lines 100-109 and 168-182); any other shape yields none and the
caller returns an empty list. -/
def normalizeResponseData : ResponseData → Option (List RuleSuite)
  | .list rs => some rs
  | .wrapped rs => some rs
  | .other => none

/-- Shared body of checkRepoBypassedRuleSuites (github.js 82-139) and
checkOrgBypassedRulesSuites (github.js 150-210); the two functions differ only
in endpoint path, params and log text. On success the two accepted shapes are
normalised and the records are filtered client-side on after_sha equal to the
merge commit (lines 115-117 and 185-187). In the catch block, the branch for
status 404 interpolates apiPath into a log template (lines 128 and 198), but
apiPath is a const declared inside the try block (lines 84 and 152) and is not
in scope in the catch block, so evaluating that template raises a
ReferenceError; every other caught error reaches the final return and yields
an empty list (lines 138 and 208). -/
def ruleSuitesResponse (outcome : ReqOutcome) (mergeCommitSha : String) :
    Except JsError (List RuleSuite) :=
  match outcome with
  | .ok d =>
    match normalizeResponseData d with
    | some rs => .ok (rs.filter (fun r => r.after_sha == some mergeCommitSha))
    | none => .ok []
  | .err status =>
    if status = some 404 then .error (.referenceError "apiPath")
    else .ok []

/-- Decidable equality for Except results, used to evaluate traces on
concrete inputs. -/
instance {ε α : Type} [DecidableEq ε] [DecidableEq α] : DecidableEq (Except ε α) :=
  fun a b =>
    match a, b with
    | .ok x, .ok y =>
      if h : x = y then isTrue (by rw [h]) else isFalse (by intro hc; cases hc; exact h rfl)
    | .ok _, .error _ => isFalse (by intro hc; cases hc)
    | .error _, .ok _ => isFalse (by intro hc; cases hc)
    | .error x, .error y =>
      if h : x = y then isTrue (by rw [h]) else isFalse (by intro hc; cases hc; exact h rfl)

/-- Trace of one query: the requests actually issued, and the result
(a JsError result models the promise rejecting). -/
structure QueryTrace where
  requests : List ApiRequest
  result : Except JsError (List RuleSuite)
  deriving DecidableEq, Repr

/-- Embedding of checkRepoBypassedRuleSuites (github.js 82-139): exactly one
request to the repository endpoint, then the shared response handling. -/
def checkRepoBypassedRuleSuites (owner repo : String) (remote : ApiRequest → ReqOutcome)
    (ref mergeCommitSha : String) : QueryTrace :=
  let req := repoRequest owner repo ref
  ⟨[req], ruleSuitesResponse (remote req) mergeCommitSha⟩

/-- Embedding of checkOrgBypassedRulesSuites (github.js 150-210): exactly one
request to the organisation endpoint, then the shared response handling. -/
def checkOrgBypassedRulesSuites (owner : String) (repoFilter : Option String)
    (remote : ApiRequest → ReqOutcome) (ref mergeCommitSha : String) : QueryTrace :=
  let req := orgRequest owner repoFilter ref
  ⟨[req], ruleSuitesResponse (remote req) mergeCommitSha⟩

/-- Outcome of the nth token-exchange attempt, counted from 0. -/
inductive ExchangeOutcome where
  | token (t : String)
  | transientFailure
  deriving DecidableEq, Repr

/-- Environment read by createOctokitClient: the two identifier variables, the
result of the private-key regex extraction from the .env file (github.js
29-38), and the behaviour of the token exchange. -/
structure CredEnv where
  githubAppId : Option String
  installationId : Option String
  envFilePrivateKey : Option String
  exchange : Nat → ExchangeOutcome

/-- The authenticated client value built at github.js 59-62. -/
structure Octokit where
  auth : String
  baseUrl : String
  deriving DecidableEq, Repr

/-- Embedding of createOctokitClient (github.js 11-71). The result is paired
with the number of token-exchange attempts performed. A falsy GITHUB_APP_ID or
INSTALLATION_ID throws before any exchange (lines 16-24); a failed private-key
extraction throws before any exchange (lines 26-42); otherwise exactly one
exchange is performed (line 55) and its failure is rethrown (lines 67-70) with
no retry. -/
def createOctokitClient (env : CredEnv) : Except JsError Octokit × Nat :=
  if jsTruthy env.githubAppId = false then
    (.error (.error "GitHub App ID is not set in environment variables"), 0)
  else if jsTruthy env.installationId = false then
    (.error (.error "Installation ID is not set in environment variables"), 0)
  else if jsTruthy env.envFilePrivateKey = false then
    (.error (.error "Could not find private key in .env file"), 0)
  else
    match env.exchange 0 with
    | .token t => (.ok ⟨t, "https://api.github.com"⟩, 1)
    | .transientFailure => (.error (.error "transient token exchange failure"), 1)

/-- The external token-exchange calls performed by one createOctokitClient run:
none when it fails before the exchange, one otherwise. -/
def exchangeAttempts (env : CredEnv) : Nat := (createOctokitClient env).2

/-- The webhook payload fields read by the embedded code. The base object of
a pull request in a delivered webhook always carries ref and repo.full_name. -/
structure RepoInfo where
  full_name : String
  deriving DecidableEq, Repr

/-- Base branch information of a pull request. -/
structure BaseInfo where
  ref : String
  repo : RepoInfo
  deriving DecidableEq, Repr

/-- Pull-request object of a webhook payload; fields the payload may omit are
Option. merged is Option Bool since the strict comparison merged === true in
app.js line 231 distinguishes true from both false and undefined. -/
structure PullRequest where
  number : Option Nat
  merged : Option Bool
  merge_commit_sha : Option String
  base : BaseInfo
  deriving DecidableEq, Repr

/-- The parsed webhook request body. -/
structure WebhookPayload where
  action : Option String
  pull_request : Option PullRequest
  deriving DecidableEq, Repr

/-- Modelled new Date(x).toLocaleString() at pullRequest.js line 215: an
abstract deterministic rendering of the timestamp string; since no claim
depends on the concrete rendering, the identity rendering is used. -/
def dateToLocaleString (pushedAt : String) : String := pushedAt

/-- Modelled encodeURIComponent at pullRequest.js line 169: an injective
encoding of the ref; since no claim depends on the concrete escaping, the
identity encoding is used. -/
def encodeURIComponent (s : String) : String := s

/-- Embedding of validateRuleset (pullRequest.js 9-17): both the try body and
the catch handler return true, for every input. -/
def validateRuleset (_pullRequest : PullRequest) : Bool := true

/-- Embedding of one formatted block of formatRuleSuites
(pullRequest.js 209-220), with the JavaScript truthiness fallbacks. -/
def formatRuleSuiteBlock (ruleSuite : RuleSuite) : String :=
  let beforeSha := if jsTruthy ruleSuite.before_sha then (jsStr ruleSuite.before_sha).take 7
    else "Unknown"
  let afterSha := if jsTruthy ruleSuite.after_sha then (jsStr ruleSuite.after_sha).take 7
    else "Unknown"
  let status := if jsTruthy ruleSuite.status then jsStr ruleSuite.status
    else if jsTruthy ruleSuite.result then jsStr ruleSuite.result
    else "bypass"
  let actorName := if jsTruthy ruleSuite.actor_name then jsStr ruleSuite.actor_name
    else "Unknown"
  let pushedAt := if jsTruthy ruleSuite.pushed_at then dateToLocaleString (jsStr ruleSuite.pushed_at)
    else "Unknown"
  "- **Commit:** " ++ afterSha ++ " _(from " ++ beforeSha ++ ")_\n- **Actor:** " ++ actorName ++
    "\n- **Status:** " ++ status ++ "\n- **Time:** " ++ pushedAt

/-- Embedding of formatRuleSuites (pullRequest.js 204-222): empty input gives
the empty string, otherwise the per-record blocks joined by blank lines. -/
def formatRuleSuites (ruleSuites : List RuleSuite) : String :=
  if ruleSuites.isEmpty then ""
  else String.intercalate "\n\n" (ruleSuites.map formatRuleSuiteBlock)

/-- Organisation insights URL built at pullRequest.js line 156. -/
def orgRulesetUrl (owner repo : String) : String :=
  "https://github.com/organizations/" ++ owner ++ "/settings/rules/insights?repository=" ++
    repo ++ "&time_period=day&rule_status=bypass"

/-- Repository insights URL built at pullRequest.js line 169. -/
def repoRulesetUrl (owner repo baseRef : String) : String :=
  "https://github.com/" ++ owner ++ "/" ++ repo ++ "/settings/rules/insights?ref=" ++
    encodeURIComponent baseRef ++ "&time_period=day&rule_status=bypass"

/-- Embedding of the comment body built by postCombinedRulesetBypassComment
(pullRequest.js 150-190); the final postComment call is recorded by the
caller as an external call carrying this body. -/
def postCombinedRulesetBypassComment (owner repo : String)
    (orgRuleSuites repoRuleSuites : List RuleSuite) (baseRef : String) : String :=
  let orgRulesInfo := if orgRuleSuites.isEmpty then ""
    else "### Organization-Level Bypasses\n[View Bypassed Organization Ruleset Insights](" ++
      orgRulesetUrl owner repo ++ ")\n\n" ++ formatRuleSuites orgRuleSuites ++ "\n"
  let repoRulesInfo := if repoRuleSuites.isEmpty then ""
    else "### Repository-Level Bypasses\n[View Bypassed Repository Ruleset Insights](" ++
      repoRulesetUrl owner repo baseRef ++ ")\n\n" ++ formatRuleSuites repoRuleSuites ++ "\n"
  let totalBypasses := orgRuleSuites.length + repoRuleSuites.length
  "## 🚨 Ruleset Bypass Detected\n\nThis pull request was merged with **" ++
    toString totalBypasses ++ "** levels of bypassed ruleset(s).\n\n" ++ orgRulesInfo ++
    "\n" ++ repoRulesInfo ++
    "\n\n---\n\nPlease ensure these bypasses comply with your organization\x27s governance policies. Bypassing ruleset protections may introduce security, quality, or compliance risks."

/-- One externally visible call attempted by the pipeline. -/
inductive ExtCall where
  | tokenExchange
  | apiQuery (req : ApiRequest)
  | commentPost (owner repo : String) (number : Option Nat) (body : String)
  deriving DecidableEq, Repr

/-- External environment of one processing run: the credential environment and
the remote rule-suites API. -/
structure World where
  credEnv : CredEnv
  remote : ApiRequest → ReqOutcome

/-- Token-exchange calls recorded for one createOctokitClient run. -/
def exchangeCalls (env : CredEnv) : List ExtCall :=
  if exchangeAttempts env = 0 then [] else [.tokenExchange]

/-- Splitting a character list at every slash, accumulating the current
segment in reverse; models String.prototype.split with a one-character
separator, empty segments included. -/
def splitSlashAux : List Char → List Char → List String
  | [], acc => [String.mk acc.reverse]
  | c :: cs, acc =>
    if c = '/' then String.mk acc.reverse :: splitSlashAux cs []
    else splitSlashAux cs (c :: acc)

/-- JavaScript split at the slash character. -/
def splitSlash (s : String) : List String := splitSlashAux s.data []

/-- Owner part of pullRequest.base.repo.full_name.split at the slash
(pullRequest.js line 61, array destructuring). -/
def ownerOf (pr : PullRequest) : String :=
  jsStr ((splitSlash pr.base.repo.full_name).get? 0)

/-- Repo part of pullRequest.base.repo.full_name.split at the slash
(pullRequest.js line 61, array destructuring). -/
def repoOf (pr : PullRequest) : String :=
  jsStr ((splitSlash pr.base.repo.full_name).get? 1)

/-- Records contributed by one scope in handlePullRequestClosed: the caught
failure of a scope query leaves that scope at its initial empty list
(pullRequest.js 77-79, 97-99, 117-119). -/
def scopeSuites : Except JsError (List RuleSuite) → List RuleSuite
  | .ok l => l
  | .error _ => []

/-- Result of one handlePullRequestClosed run: the external calls attempted,
the bypassFound flag, and the per-scope record lists. -/
structure ClosedResult where
  calls : List ExtCall
  bypassFound : Bool
  orgSuites : List RuleSuite
  repoSuites : List RuleSuite
  deriving DecidableEq, Repr

/-- Embedding of handlePullRequestClosed (pullRequest.js 57-138): exit before
any external call when the merge commit is falsy (lines 66-69); obtain the
client (line 74, its failure is caught by the outer catch after the exchange
was attempted); query the organisation scope then the repository scope, each
in its own try/catch so one failure cannot abort the other (lines 82-119);
set bypassFound when either scope returned a non-empty list (lines 91-92,
111-112); post the combined comment exactly when bypassFound (lines 122-131). -/
def handlePullRequestClosed (w : World) (pr : PullRequest) : ClosedResult :=
  if jsTruthy pr.merge_commit_sha = false then ⟨[], false, [], []⟩
  else
    match (createOctokitClient w.credEnv).1 with
    | .error _ => ⟨exchangeCalls w.credEnv, false, [], []⟩
    | .ok _ =>
      let owner := ownerOf pr
      let repo := repoOf pr
      let baseRef := pr.base.ref
      let mergeCommitSha := jsStr pr.merge_commit_sha
      let orgTrace := checkOrgBypassedRulesSuites owner none w.remote baseRef mergeCommitSha
      let orgSuites := scopeSuites orgTrace.result
      let repoTrace := checkRepoBypassedRuleSuites owner repo w.remote baseRef mergeCommitSha
      let repoSuites := scopeSuites repoTrace.result
      let bypassFound := !orgSuites.isEmpty || !repoSuites.isEmpty
      let commentCalls := if bypassFound then
          [ExtCall.commentPost owner repo pr.number
            (postCombinedRulesetBypassComment owner repo orgSuites repoSuites baseRef)]
        else []
      ⟨exchangeCalls w.credEnv ++ (orgTrace.requests ++ repoTrace.requests).map .apiQuery ++
        commentCalls, bypassFound, orgSuites, repoSuites⟩

/-- Embedding of handlePullRequest (pullRequest.js 19-51): missing payload or
missing pull_request logs and returns (lines 21-30); the closed-and-merged
case delegates to handlePullRequestClosed (lines 35-36); every other case
computes bypassed as the negation of validateRuleset and would create a
client and post a fixed comment if bypassed were true (lines 38-46). -/
def handlePullRequest (w : World) (context : Option WebhookPayload) : List ExtCall :=
  match context with
  | none => []
  | some payload =>
    match payload.pull_request with
    | none => []
    | some pullRequest =>
      if payload.action = some "closed" ∧ pullRequest.merged = some true then
        (handlePullRequestClosed w pullRequest).calls
      else
        let bypassed := !validateRuleset pullRequest
        if bypassed = true then
          match (createOctokitClient w.credEnv).1 with
          | .error _ => exchangeCalls w.credEnv
          | .ok _ => exchangeCalls w.credEnv ++
              [ExtCall.commentPost (ownerOf pullRequest) (repoOf pullRequest)
                pullRequest.number "This pull request has bypassed the required rulesets."]
        else []

/-- The prNumber component of the webhook identifier (app.js line 215):
optional chaining into the payload, then the or-default to the text unknown;
the JavaScript number 0 is falsy and also falls back. -/
def prNumberStr (payload : WebhookPayload) : String :=
  match payload.pull_request with
  | some pr =>
    match pr.number with
    | some n => if n = 0 then "unknown" else toString n
    | none => "unknown"
  | none => "unknown"

/-- The mergeCommitSha component of the webhook identifier (app.js line 216):
optional chaining, then the or-default to the empty string. -/
def mergeShaStr (payload : WebhookPayload) : String :=
  match payload.pull_request with
  | some pr => if jsTruthy pr.merge_commit_sha then jsStr pr.merge_commit_sha else ""
  | none => ""

/-- The webhookId template of app.js line 217: the five components of one
logical event joined by dots. -/
def webhookIdOf (event : String) (action : Option String) (payload : WebhookPayload)
    (deliveryId : Option String) : String :=
  event ++ "." ++ jsStr action ++ "." ++ jsStr deliveryId ++ "." ++ prNumberStr payload ++
    "." ++ mergeShaStr payload

/-- The md5 digest of the webhookId (app.js line 218), modelled as an
injective fingerprint of its input; the dedup behaviour depends only on
distinct identifiers having distinct fingerprints, so the identity encoding
is used. -/
def webhookHash (webhookId : String) : String := webhookId

/-- The DedupKey stored in the processedWebhooks set for one submission. -/
def dedupKeyOf (event : String) (action : Option String) (payload : WebhookPayload)
    (deliveryId : Option String) : String :=
  webhookHash (webhookIdOf event action payload deliveryId)

/-- Terminal branch taken by one processWebhook run (app.js 212-256). -/
inductive StepOutcome where
  | deduplicated
  | processedPullRequest
  | skippedPullRequest
  | protectedBranchNoted
  | unhandled
  deriving DecidableEq, Repr

/-- Result of one processWebhook run: the processedWebhooks set afterwards
(insertion order, oldest first), the external calls attempted, and the branch
taken. -/
structure StepResult where
  state : List String
  calls : List ExtCall
  outcome : StepOutcome
  deriving DecidableEq, Repr

/-- The strict condition of app.js line 231: action === closed, a present
pull_request, and merged === true. -/
def mergedClosedEvent (action : Option String) (payload : WebhookPayload) : Bool :=
  (action == some "closed") &&
    (match payload.pull_request with
     | some pr => pr.merged == some true
     | none => false)

/-- Dispatch of app.js lines 230-241: the calls attempted and the branch
taken, once the submission passed the dedup gate. -/
def dispatchEvent (w : World) (event : String) (action : Option String)
    (payload : WebhookPayload) : List ExtCall × StepOutcome :=
  if event = "pull_request" then
    if mergedClosedEvent action payload then
      (handlePullRequest w (some payload), .processedPullRequest)
    else ([], .skippedPullRequest)
  else if event = "protected_branch" ∧ action = some "policy_override" then
    ([], .protectedBranchNoted)
  else ([], .unhandled)

/-- Embedding of processWebhook (app.js 212-256). The DedupKey is computed
(lines 215-218); a submission whose key is already in the set returns at once
(lines 221-224); otherwise the key is added BEFORE the event is dispatched
(line 227), the event branch runs (lines 230-241), and when the set has grown
past 1000 entries the 200 oldest entries, in insertion order, are deleted
(lines 244-249). -/
def processWebhook (w : World) (processedWebhooks : List String) (event : String)
    (action : Option String) (payload : WebhookPayload) (deliveryId : Option String) :
    StepResult :=
  let h := dedupKeyOf event action payload deliveryId
  if h ∈ processedWebhooks then ⟨processedWebhooks, [], .deduplicated⟩
  else
    let afterAdd := processedWebhooks ++ [h]
    let co := dispatchEvent w event action payload
    let afterCleanup := if 1000 < afterAdd.length then afterAdd.drop 200 else afterAdd
    ⟨afterCleanup, co.1, co.2⟩

/-- Whether an external call is a comment delivery. -/
def isCommentPost : ExtCall → Bool
  | .commentPost _ _ _ _ => true
  | _ => false

/-- Number of comment deliveries in a call trace. -/
def commentCount (calls : List ExtCall) : Nat :=
  (calls.filter isCommentPost).length

/-- Claim scope of the skip properties: the action is not closed, or the
merged flag is not the literal true, or the merge commit identifier is null
or empty. -/
def skipScope (action : Option String) (payload : WebhookPayload) : Prop :=
  action ≠ some "closed" ∨
    (match payload.pull_request with
     | some pr => pr.merged ≠ some true ∨ jsTruthy pr.merge_commit_sha = false
     | none => True)

instance (action : Option String) (payload : WebhookPayload) :
    Decidable (skipScope action payload) := by
  unfold skipScope
  cases payload.pull_request <;> exact inferInstance

/-- Well-formedness of one optional record field in the vocabulary of the
specification: the field is either absent or a non-empty string. -/
def fieldOk (o : Option String) : Prop := o ≠ some ""

instance (o : Option String) : Decidable (fieldOk o) := by
  unfold fieldOk
  infer_instance

/-- Spec rendering of a commit identifier, following the specification text:
shortened to its first 7 characters, or Unknown when absent. -/
def specShortSha : Option String → String
  | none => "Unknown"
  | some s => s.take 7

/-- Spec rendering of the actor: the actor name, or Unknown when absent. -/
def specActorName : Option String → String
  | none => "Unknown"
  | some a => a

/-- Spec rendering of the outcome label, following the specification text:
fall back through status, then result, then the default bypass. -/
def specOutcomeLabel : Option String → Option String → String
  | some s, _ => s
  | none, some r => r
  | none, none => "bypass"

/-- Spec rendering of the timestamp: the rendered timestamp, or Unknown when
absent. -/
def specTimestamp : Option String → String
  | none => "Unknown"
  | some t => dateToLocaleString t

/-- A credential environment with nothing configured, whose exchange would
fail; used where the claim at hand attempts no external call. -/
def emptyCredEnv : CredEnv :=
  ⟨none, none, none, fun _ => .transientFailure⟩

/-- A fully configured credential environment whose exchange succeeds at the
first attempt. -/
def okCredEnv : CredEnv :=
  ⟨some "12345", some "67890", some "PRIVATE-KEY-PEM", fun _ => .token "ghs_tok"⟩

/-- A credential environment whose first exchange attempt fails transiently
and whose every later attempt would succeed: any retry at all would obtain a
token. -/
def transientCredEnv : CredEnv :=
  ⟨some "12345", some "67890", some "PRIVATE-KEY-PEM",
    fun n => if n = 0 then .transientFailure else .token "ghs_tok"⟩

/-- A remote system that rejects every request with HTTP status 404. -/
def remote404 : ApiRequest → ReqOutcome := fun _ => .err (some 404)

/-- A remote system that rejects every request with HTTP status 403. -/
def remote403 : ApiRequest → ReqOutcome := fun _ => .err (some 403)

/-- A remote system on which every request fails without an HTTP status, as a
plain network failure does. -/
def remoteNetFail : ApiRequest → ReqOutcome := fun _ => .err none

/-- A world with nothing configured; the claims evaluated in it attempt no
external call, so its behaviour is irrelevant. -/
def trivialWorld : World := ⟨emptyCredEnv, remoteNetFail⟩

/-- A concrete non-merged pull-request payload: action opened, merged false,
no merge commit. -/
def openedPayload : WebhookPayload :=
  ⟨some "opened", some ⟨some 1, some false, none, ⟨"main", ⟨"acme/widgets"⟩⟩⟩⟩

/-- A concrete merged-and-closed pull-request payload for PR 42 with merge
commit deadbeef1234567 on acme/widgets. -/
def mergedPayload : WebhookPayload :=
  ⟨some "closed", some ⟨some 42, some true, some "deadbeef1234567",
    ⟨"main", ⟨"acme/widgets"⟩⟩⟩⟩

/-- The pull request of mergedPayload. -/
def mergedPR : PullRequest :=
  ⟨some 42, some true, some "deadbeef1234567", ⟨"main", ⟨"acme/widgets"⟩⟩⟩

/-- A record whose after_sha is sha-A. -/
def recordShaA : RuleSuite :=
  ⟨some "1111111aaaa", some "sha-A", some "bypass", none, some "alice", some "2025-04-01T20:30:38Z"⟩

/-- A record whose after_sha is sha-B. -/
def recordShaB : RuleSuite :=
  ⟨some "2222222bbbb", some "sha-B", some "bypass", none, some "bob", some "2025-04-02T08:15:00Z"⟩

/-- A record matching the merge commit of mergedPR, actor alice. -/
def recordDeadbeef1 : RuleSuite :=
  ⟨some "0123456beforebefore", some "deadbeef1234567", some "bypass", none, some "alice",
    some "2025-04-01T20:30:38Z"⟩

/-- A second record matching the merge commit of mergedPR. -/
def recordDeadbeef2 : RuleSuite :=
  ⟨some "89abcdefbeforebefore", some "deadbeef1234567", none, some "bypass", some "carol",
    some "2025-04-03T11:00:00Z"⟩

/-- A remote system whose organisation endpoint rejects with 404 while the
repository endpoint answers with two records matching the merge commit of
mergedPR; exercises partial-failure isolation. -/
def splitRemote : ApiRequest → ReqOutcome := fun req =>
  if req.path = orgRuleSuitesPath "acme" then .err (some 404)
  else .ok (.list [recordDeadbeef1, recordDeadbeef2])

/-- A remote system answering every request with the two-record bare list
whose after_sha values are sha-A and sha-B. -/
def abRemote : ApiRequest → ReqOutcome := fun _ => .ok (.list [recordShaA, recordShaB])

/-- The world used by the aggregation witness: working credentials, split
remote. -/
def splitWorld : World := ⟨okCredEnv, splitRemote⟩

/-- A record with every field present, whose after_sha is the 16-character
identifier used by the formatter example of the specification. -/
def formatterRecord : RuleSuite :=
  ⟨some "123456789abcdef0", some "abcdef0123456789", some "bypass", some "completed",
    some "alice", some "2025-04-01T20:30:38Z"⟩

theorem processWebhook_of_mem {w : World} {st : List String} {e : String} {a : Option String}
    {p : WebhookPayload} {d : Option String} (h : dedupKeyOf e a p d ∈ st) :
    processWebhook w st e a p d = ⟨st, [], .deduplicated⟩ := by
  simp [processWebhook, h]

theorem mem_state_processWebhook (w : World) (st : List String) (e : String)
    (a : Option String) (p : WebhookPayload) (d : Option String) :
    dedupKeyOf e a p d ∈ (processWebhook w st e a p d).state := by
  by_cases h : dedupKeyOf e a p d ∈ st
  · rw [processWebhook_of_mem h]
    exact h
  · unfold processWebhook
    rw [if_neg h]
    by_cases hlen : 1000 < (st ++ [dedupKeyOf e a p d]).length
    · simp only [hlen, if_pos]
      rw [List.drop_append_eq_append_drop]
      have h200 : 200 - st.length = 0 := by
        simp only [List.length_append, List.length_singleton] at hlen
        omega
      rw [h200]
      simp
    · simp only [List.length_append, List.length_singleton] at hlen
      simp [hlen]

theorem commentCount_append (l₁ l₂ : List ExtCall) :
    commentCount (l₁ ++ l₂) = commentCount l₁ + commentCount l₂ := by
  simp [commentCount, List.filter_append]

theorem commentCount_map_apiQuery (reqs : List ApiRequest) :
    commentCount (reqs.map .apiQuery) = 0 := by
  induction reqs with
  | nil => rfl
  | cons r t ih => simp only [List.map_cons, commentCount, List.filter, isCommentPost] at ih ⊢; exact ih

theorem commentCount_exchangeCalls (env : CredEnv) : commentCount (exchangeCalls env) = 0 := by
  unfold exchangeCalls
  by_cases h : exchangeAttempts env = 0 <;> simp [h, commentCount, List.filter, isCommentPost]

theorem commentCount_handlePullRequestClosed (w : World) (pr : PullRequest) :
    commentCount (handlePullRequestClosed w pr).calls ≤ 1 := by
  unfold handlePullRequestClosed
  by_cases hsha : jsTruthy pr.merge_commit_sha = false
  · simp [hsha, commentCount]
  · rw [if_neg hsha]
    cases hc : (createOctokitClient w.credEnv).1 with
    | error e => simp [commentCount_exchangeCalls]
    | ok c =>
      simp only
      rw [commentCount_append, commentCount_append, commentCount_exchangeCalls,
        commentCount_map_apiQuery]
      by_cases hb : (!(scopeSuites (checkOrgBypassedRulesSuites (ownerOf pr) none w.remote
          pr.base.ref (jsStr pr.merge_commit_sha)).result).isEmpty ||
          !(scopeSuites (checkRepoBypassedRuleSuites (ownerOf pr) (repoOf pr) w.remote
          pr.base.ref (jsStr pr.merge_commit_sha)).result).isEmpty) = true <;>
        simp [hb, commentCount, List.filter, isCommentPost]

theorem commentCount_handlePullRequest (w : World) (ctx : Option WebhookPayload) :
    commentCount (handlePullRequest w ctx) ≤ 1 := by
  unfold handlePullRequest
  cases ctx with
  | none => simp [commentCount]
  | some payload =>
    cases hpr : payload.pull_request with
    | none => simp [hpr, commentCount]
    | some pr =>
      simp only [hpr]
      by_cases hcl : payload.action = some "closed" ∧ pr.merged = some true
      · rw [if_pos hcl]
        exact commentCount_handlePullRequestClosed w pr
      · rw [if_neg hcl]
        simp [validateRuleset, commentCount]

theorem commentCount_processWebhook (w : World) (st : List String) (e : String)
    (a : Option String) (p : WebhookPayload) (d : Option String) :
    commentCount (processWebhook w st e a p d).calls ≤ 1 := by
  by_cases h : dedupKeyOf e a p d ∈ st
  · rw [processWebhook_of_mem h]
    simp [commentCount]
  · unfold processWebhook
    rw [if_neg h]
    simp only
    unfold dispatchEvent
    by_cases hev : e = "pull_request"
    · rw [if_pos hev]
      by_cases hm : mergedClosedEvent a p = true
      · simp only [hm, if_pos]
        exact commentCount_handlePullRequest w (some p)
      · simp [hm, commentCount]
    · rw [if_neg hev]
      by_cases hpb : e = "protected_branch" ∧ a = some "policy_override" <;>
        simp [hpb, commentCount]

/-- C4: the credential provider performs no retry at all. The claim says a
transient exchange failure is retried up to 3 times with backoff; on the
concrete environment whose first exchange attempt fails transiently and whose
every later attempt would succeed, createOctokitClient makes exactly one
exchange attempt and fails, so no second attempt is ever made. -/
theorem C4_no_retry_counterexample :
    (createOctokitClient transientCredEnv).2 = 1 ∧
    (createOctokitClient transientCredEnv).1 =
      .error (.error "transient token exchange failure") ∧
    transientCredEnv.exchange 1 = .token "ghs_tok" := by
  decide

/-- C4 amended: the credential exchange is attempted at most once, with no
retry and no backoff; a missing or falsy application identifier, installation
identifier or extracted private key fails immediately with zero exchange
attempts; a transient failure of the first exchange attempt makes the whole
call fail. -/
theorem C4_single_attempt_no_retry (env : CredEnv) :
    exchangeAttempts env ≤ 1 ∧
    ((jsTruthy env.githubAppId = false ∨ jsTruthy env.installationId = false ∨
        jsTruthy env.envFilePrivateKey = false) →
      exchangeAttempts env = 0 ∧ ∃ e, (createOctokitClient env).1 = .error e) ∧
    (env.exchange 0 = .transientFailure → ∃ e, (createOctokitClient env).1 = .error e) := by
  unfold exchangeAttempts createOctokitClient
  by_cases h1 : jsTruthy env.githubAppId = false
  · simp [h1]
  · by_cases h2 : jsTruthy env.installationId = false
    · simp [h1, h2]
    · by_cases h3 : jsTruthy env.envFilePrivateKey = false
      · simp [h1, h2, h3]
      · cases hex : env.exchange 0 with
        | token t => simp [h1, h2, h3, hex]
        | transientFailure => simp [h1, h2, h3, hex]

/-- C4 witness: on the transiently failing environment the call fails, and on
the unconfigured environment it fails with zero exchange attempts. -/
theorem C4_witness :
    (∃ e, (createOctokitClient transientCredEnv).1 = .error e) ∧
    exchangeAttempts emptyCredEnv = 0 ∧
    (∃ e, (createOctokitClient emptyCredEnv).1 = .error e) :=
  ⟨(C4_single_attempt_no_retry transientCredEnv).2.2 (by decide),
    ((C4_single_attempt_no_retry emptyCredEnv).2.1 (by decide)).1,
    ((C4_single_attempt_no_retry emptyCredEnv).2.1 (by decide)).2⟩

/-- C5: no secondary legacy endpoint exists. The claim says that when the
primary endpoint form returns not found, a secondary legacy endpoint path is
attempted once; on a remote that rejects the primary request with 404, each
query function issues exactly its single primary request and never a second
one. -/
theorem C5_no_legacy_fallback_counterexample :
    (checkRepoBypassedRuleSuites "acme" "widgets" remote404 "main" "abc").requests =
      [repoRequest "acme" "widgets" "main"] ∧
    (checkOrgBypassedRulesSuites "acme" none remote404 "main" "abc").requests =
      [orgRequest "acme" none "main"] ∧
    (checkRepoBypassedRuleSuites "acme" "widgets" remote404 "main" "abc").requests.length ≠ 2 := by
  decide

/-- C5 amended: each rule-suite query attempts exactly one endpoint form, its
primary one, whatever the outcome of the request; no secondary legacy path is
ever attempted. -/
theorem C5_single_endpoint_per_query (owner repo ref sha : String) (repoFilter : Option String)
    (remote : ApiRequest → ReqOutcome) :
    (checkRepoBypassedRuleSuites owner repo remote ref sha).requests =
      [repoRequest owner repo ref] ∧
    (checkOrgBypassedRulesSuites owner repoFilter remote ref sha).requests =
      [orgRequest owner repoFilter ref] :=
  ⟨rfl, rfl⟩

/-- C7: the claim is the intent of the code (the catch blocks end with a
comment saying return an empty array instead of throwing, and do return an
empty list), but the 404 branch of each catch block interpolates apiPath into
its log template, and apiPath is a const declared inside the try block and
not in scope in the catch block, so a rejection with status 404 raises a
ReferenceError out of the catch block instead of returning an empty list;
status 403 and plain network failures do return the empty list. -/
theorem C7_catch_block_reference_error :
    (checkRepoBypassedRuleSuites "acme" "widgets" remote404 "main" "abc").result =
      .error (.referenceError "apiPath") ∧
    (checkOrgBypassedRulesSuites "acme" none remote404 "main" "abc").result =
      .error (.referenceError "apiPath") ∧
    (checkRepoBypassedRuleSuites "acme" "widgets" remote403 "main" "abc").result = .ok [] ∧
    (checkOrgBypassedRulesSuites "acme" none remote403 "main" "abc").result = .ok [] ∧
    (checkRepoBypassedRuleSuites "acme" "widgets" remoteNetFail "main" "abc").result = .ok [] ∧
    (checkOrgBypassedRulesSuites "acme" none remoteNetFail "main" "abc").result = .ok [] := by
  decide

/-- C6: on either accepted response shape, each query function returns
exactly the records whose after_sha equals the target merge commit. -/
theorem C6_clientside_filter (owner repo ref sha : String) (repoFilter : Option String)
    (remote : ApiRequest → ReqOutcome) (rs : List RuleSuite)
    (hrepo : remote (repoRequest owner repo ref) = .ok (.list rs) ∨
      remote (repoRequest owner repo ref) = .ok (.wrapped rs))
    (horg : remote (orgRequest owner repoFilter ref) = .ok (.list rs) ∨
      remote (orgRequest owner repoFilter ref) = .ok (.wrapped rs)) :
    (checkRepoBypassedRuleSuites owner repo remote ref sha).result =
      .ok (rs.filter (fun r => r.after_sha == some sha)) ∧
    (checkOrgBypassedRulesSuites owner repoFilter remote ref sha).result =
      .ok (rs.filter (fun r => r.after_sha == some sha)) ∧
    ∀ r, r ∈ rs.filter (fun r => r.after_sha == some sha) ↔
      (r ∈ rs ∧ r.after_sha = some sha) := by
  refine ⟨?_, ?_, ?_⟩
  · rcases hrepo with h | h <;>
      simp [checkRepoBypassedRuleSuites, ruleSuitesResponse, h, normalizeResponseData]
  · rcases horg with h | h <;>
      simp [checkOrgBypassedRulesSuites, ruleSuitesResponse, h, normalizeResponseData]
  · intro r
    simp [List.mem_filter]

/-- C6 witness: on the bare list whose after_sha values are sha-A and sha-B
with target sha-B, the filtered output is exactly the one sha-B record. -/
theorem C6_witness :
    (checkRepoBypassedRuleSuites "acme" "widgets" abRemote "main" "sha-B").result =
      .ok ([recordShaA, recordShaB].filter (fun r => r.after_sha == some "sha-B")) ∧
    [recordShaA, recordShaB].filter (fun r => r.after_sha == some "sha-B") = [recordShaB] :=
  ⟨(C6_clientside_filter "acme" "widgets" "main" "sha-B" none abRemote
      [recordShaA, recordShaB] (Or.inl rfl) (Or.inl rfl)).1,
    by decide⟩

theorem intercalate_singleton (x : String) : String.intercalate "\n\n" [x] = x := rfl

/-- C8: for every record whose optional fields are each absent or non-empty,
the formatted block renders the before and after identifiers shortened to
their first 7 characters (or Unknown when absent), the actor name or Unknown,
the outcome label falling back through status then result then bypass, and
the timestamp or Unknown; in particular after_sha abcdef0123456789 renders as
abcdef0, and the output is deterministic. -/
theorem C8_formatter (r : RuleSuite) (hb : fieldOk r.before_sha) (ha : fieldOk r.after_sha)
    (hs : fieldOk r.status) (hres : fieldOk r.result) (hactor : fieldOk r.actor_name)
    (hp : fieldOk r.pushed_at) :
    formatRuleSuites [r] =
      "- **Commit:** " ++ specShortSha r.after_sha ++ " _(from " ++ specShortSha r.before_sha ++
        ")_\n- **Actor:** " ++ specActorName r.actor_name ++ "\n- **Status:** " ++
        specOutcomeLabel r.status r.result ++ "\n- **Time:** " ++ specTimestamp r.pushed_at ∧
    (r.after_sha = some "abcdef0123456789" → specShortSha r.after_sha = "abcdef0") ∧
    formatRuleSuites [r] = formatRuleSuites [r] := by
  refine ⟨?_, ?_, rfl⟩
  · obtain ⟨b, a, s, res, act, p⟩ := r
    simp only [fieldOk] at hb ha hs hres hactor hp
    cases b <;> cases a <;> cases s <;> cases res <;> cases act <;> cases p <;>
      simp_all [formatRuleSuites, formatRuleSuiteBlock, intercalate_singleton, jsTruthy,
        jsStr, specShortSha, specActorName, specOutcomeLabel, specTimestamp,
        dateToLocaleString, String.isEmpty_iff, Bool.eq_false_iff, String.append_assoc]
  · intro h
    rw [h]
    decide

/-- C8 witness: the fully populated record with after_sha abcdef0123456789
renders with the 7-character short forms, the actor, the status fallback and
the timestamp. -/
theorem C8_witness :
    formatRuleSuites [formatterRecord] =
      "- **Commit:** abcdef0 _(from 1234567)_\n- **Actor:** alice\n- **Status:** bypass\n- **Time:** 2025-04-01T20:30:38Z" ∧
    specShortSha formatterRecord.after_sha = "abcdef0" :=
  ⟨by decide,
    (C8_formatter formatterRecord (by decide) (by decide) (by decide) (by decide) (by decide)
      (by decide)).2.1 rfl⟩

/-- C10: validateRuleset returns true for every input, so in the handler for
events that are not closed-and-merged the bypassed flag is always false and
the branch that would post the fixed bypass comment performs no external
call. -/
theorem C10_bypass_branch_unreachable :
    (∀ pr, validateRuleset pr = true) ∧
    ∀ (w : World) (payload : WebhookPayload) (pr : PullRequest),
      payload.pull_request = some pr →
      ¬(payload.action = some "closed" ∧ pr.merged = some true) →
      handlePullRequest w (some payload) = [] := by
  refine ⟨fun _ => rfl, ?_⟩
  intro w payload pr hpr hna
  unfold handlePullRequest
  simp only [hpr]
  rw [if_neg hna]
  simp [validateRuleset]

theorem handlePullRequest_sha_false {w : World} {payload : WebhookPayload} {pr : PullRequest}
    (hpr : payload.pull_request = some pr) (hsha : jsTruthy pr.merge_commit_sha = false) :
    handlePullRequest w (some payload) = [] := by
  unfold handlePullRequest
  simp only [hpr]
  by_cases hcl : payload.action = some "closed" ∧ pr.merged = some true
  · rw [if_pos hcl]
    unfold handlePullRequestClosed
    rw [if_pos hsha]
  · rw [if_neg hcl]
    simp [validateRuleset]

theorem dispatch_calls_empty_of_skip {w : World} {e : String} {a : Option String}
    {p : WebhookPayload} (hskip : skipScope a p) : (dispatchEvent w e a p).1 = [] := by
  unfold dispatchEvent
  by_cases hev : e = "pull_request"
  · rw [if_pos hev]
    by_cases hm : mergedClosedEvent a p = true
    · rw [if_pos hm]
      unfold mergedClosedEvent at hm
      rw [Bool.and_eq_true] at hm
      obtain ⟨ha, hmg⟩ := hm
      rw [beq_iff_eq] at ha
      cases hprq : p.pull_request with
      | none => rw [hprq] at hmg; simp at hmg
      | some pr =>
        rw [hprq] at hmg
        rw [beq_iff_eq] at hmg
        unfold skipScope at hskip
        rcases hskip with h | h
        · exact absurd ha h
        · simp only [hprq] at h
          rcases h with h | h
          · exact absurd hmg h
          · exact handlePullRequest_sha_false hprq h
    · rw [if_neg hm]
  · rw [if_neg hev]
    by_cases hpb : e = "protected_branch" ∧ a = some "policy_override" <;> simp [hpb]

theorem processWebhook_state_world_indep (w w2 : World) (st : List String) (e : String)
    (a : Option String) (p : WebhookPayload) (d : Option String) :
    (processWebhook w st e a p d).state = (processWebhook w2 st e a p d).state := by
  unfold processWebhook
  by_cases h : dedupKeyOf e a p d ∈ st <;> simp [h]

/-- C1 counterexample: on the concrete opened, non-merged event submitted
against an empty dedup set, processing attempts no external call but DOES
record the DedupKey in the dedup set, so the claim that no DedupKey is
recorded is false on the code (the key is added at app.js line 227, before
the skip decision at lines 230-241). -/
theorem C1_dedup_key_recorded_counterexample :
    (processWebhook trivialWorld [] "pull_request" (some "opened") openedPayload
        (some "delivery-1")).calls = [] ∧
    (processWebhook trivialWorld [] "pull_request" (some "opened") openedPayload
        (some "delivery-1")).state = ["pull_request.opened.delivery-1.1."] ∧
    dedupKeyOf "pull_request" (some "opened") openedPayload (some "delivery-1") =
      "pull_request.opened.delivery-1.1." := by
  decide

/-- C1 amended: for every inbound event whose action is not closed, or whose
merged flag is not the literal true, or whose merge commit identifier is null
or empty, processing attempts no external call, but the DedupKey of the
submission IS recorded: it is inserted into the dedup set before the skip
decision and is present in the resulting set. -/
theorem C1_skip_no_calls_key_recorded (w : World) (st : List String) (event : String)
    (action : Option String) (payload : WebhookPayload) (deliveryId : Option String)
    (hskip : skipScope action payload) :
    (processWebhook w st event action payload deliveryId).calls = [] ∧
    dedupKeyOf event action payload deliveryId ∈
      (processWebhook w st event action payload deliveryId).state := by
  refine ⟨?_, mem_state_processWebhook w st event action payload deliveryId⟩
  unfold processWebhook
  by_cases h : dedupKeyOf event action payload deliveryId ∈ st
  · simp [h]
  · simp only [h, if_neg, ite_false]
    simpa using dispatch_calls_empty_of_skip (w := w) (e := event) hskip

/-- C1 witness: the opened, non-merged event on a non-empty prior set. -/
theorem C1_witness :
    skipScope (some "opened") openedPayload ∧
    (processWebhook trivialWorld ["other-key"] "pull_request" (some "opened") openedPayload
        (some "delivery-2")).calls = [] ∧
    dedupKeyOf "pull_request" (some "opened") openedPayload (some "delivery-2") ∈
      (processWebhook trivialWorld ["other-key"] "pull_request" (some "opened") openedPayload
        (some "delivery-2")).state :=
  ⟨by decide,
    (C1_skip_no_calls_key_recorded trivialWorld ["other-key"] "pull_request" (some "opened")
      openedPayload (some "delivery-2") (by decide)).1,
    (C1_skip_no_calls_key_recorded trivialWorld ["other-key"] "pull_request" (some "opened")
      openedPayload (some "delivery-2") (by decide)).2⟩

/-- C2: the DedupKey of an accepted event is in the dedup set as soon as the
submission finishes, whatever the processing step did (the state is the same
in every world, so insertion does not depend on processing succeeding), and a
second submission of the same logical event (equal webhookId, hence equal
event kind, action, delivery identifier, PR number and merge commit) is
stopped at the dedup gate: it makes no external call, changes nothing, and
the two submissions together deliver at most one comment. -/
theorem C2_dedup_gate (w w2 : World) (st : List String) (e : String) (a : Option String)
    (p : WebhookPayload) (d : Option String) (e2 : String) (a2 : Option String)
    (p2 : WebhookPayload) (d2 : Option String)
    (hsame : webhookIdOf e2 a2 p2 d2 = webhookIdOf e a p d) :
    (processWebhook w2 (processWebhook w st e a p d).state e2 a2 p2 d2).outcome =
      .deduplicated ∧
    (processWebhook w2 (processWebhook w st e a p d).state e2 a2 p2 d2).calls = [] ∧
    (processWebhook w2 (processWebhook w st e a p d).state e2 a2 p2 d2).state =
      (processWebhook w st e a p d).state ∧
    commentCount (processWebhook w st e a p d).calls +
      commentCount (processWebhook w2 (processWebhook w st e a p d).state e2 a2 p2 d2).calls
      ≤ 1 ∧
    (processWebhook w st e a p d).state = (processWebhook w2 st e a p d).state := by
  have hkey : dedupKeyOf e2 a2 p2 d2 = dedupKeyOf e a p d := by
    unfold dedupKeyOf
    exact congrArg webhookHash hsame
  have hmem : dedupKeyOf e2 a2 p2 d2 ∈ (processWebhook w st e a p d).state := by
    rw [hkey]
    exact mem_state_processWebhook w st e a p d
  have h2 := processWebhook_of_mem (w := w2) hmem
  rw [h2]
  refine ⟨rfl, rfl, rfl, ?_, processWebhook_state_world_indep w w2 st e a p d⟩
  have := commentCount_processWebhook w st e a p d
  simpa [commentCount] using this

/-- C2 witness: submitting the merged PR 42 event twice in sequence, the
first submission posts exactly one comment and the second is stopped at the
dedup gate with no calls. -/
theorem C2_witness :
    commentCount (processWebhook splitWorld [] "pull_request" (some "closed") mergedPayload
      (some "dlv-7")).calls = 1 ∧
    (processWebhook splitWorld (processWebhook splitWorld [] "pull_request" (some "closed")
        mergedPayload (some "dlv-7")).state "pull_request" (some "closed") mergedPayload
        (some "dlv-7")).outcome = .deduplicated ∧
    (processWebhook splitWorld (processWebhook splitWorld [] "pull_request" (some "closed")
        mergedPayload (some "dlv-7")).state "pull_request" (some "closed") mergedPayload
        (some "dlv-7")).calls = [] :=
  ⟨by decide,
    (C2_dedup_gate splitWorld splitWorld [] "pull_request" (some "closed") mergedPayload
      (some "dlv-7") "pull_request" (some "closed") mergedPayload (some "dlv-7") rfl).1,
    (C2_dedup_gate splitWorld splitWorld [] "pull_request" (some "closed") mergedPayload
      (some "dlv-7") "pull_request" (some "closed") mergedPayload (some "dlv-7") rfl).2.1⟩

/-- C9: starting from a dedup set within the 1000-entry retention bound, one
submission leaves the set within the bound; the DedupKey of the submission is
present afterwards; when the insertion pushes the set past the bound the new
state is exactly the inserted sequence with its 200 oldest entries dropped;
and an immediate resubmission of the same event is deduplicated. -/
theorem C9_dedup_set_bounded (w : World) (st : List String) (e : String) (a : Option String)
    (p : WebhookPayload) (d : Option String) (hst : st.length ≤ 1000) :
    (processWebhook w st e a p d).state.length ≤ 1000 ∧
    dedupKeyOf e a p d ∈ (processWebhook w st e a p d).state ∧
    (dedupKeyOf e a p d ∉ st → 1000 < st.length + 1 →
      (processWebhook w st e a p d).state = (st ++ [dedupKeyOf e a p d]).drop 200) ∧
    (processWebhook w (processWebhook w st e a p d).state e a p d).outcome =
      .deduplicated := by
  refine ⟨?_, mem_state_processWebhook w st e a p d, ?_, ?_⟩
  · unfold processWebhook
    by_cases h : dedupKeyOf e a p d ∈ st
    · simpa [h] using hst
    · rw [if_neg h]
      simp only [List.length_append, List.length_singleton]
      by_cases hlen : 1000 < st.length + 1
      · simp only [hlen, if_pos]
        simp only [List.length_drop, List.length_append, List.length_singleton]
        omega
      · simp only [hlen, ite_false]
        simp only [List.length_append, List.length_singleton]
        omega
  · intro hnew hlen
    unfold processWebhook
    rw [if_neg hnew]
    simp only [List.length_append, List.length_singleton, hlen, if_pos]
  · rw [processWebhook_of_mem (mem_state_processWebhook w st e a p d)]

/-- C9 witness: one submission against the empty set stays within the bound
and is deduplicated on resubmission. -/
theorem C9_witness :
    ([] : List String).length ≤ 1000 ∧
    (processWebhook trivialWorld [] "pull_request" (some "opened") openedPayload
      (some "dlv-9")).state.length ≤ 1000 ∧
    (processWebhook trivialWorld (processWebhook trivialWorld [] "pull_request" (some "opened")
        openedPayload (some "dlv-9")).state "pull_request" (some "opened") openedPayload
        (some "dlv-9")).outcome = .deduplicated :=
  ⟨by decide,
    (C9_dedup_set_bounded trivialWorld [] "pull_request" (some "opened") openedPayload
      (some "dlv-9") (by decide)).1,
    (C9_dedup_set_bounded trivialWorld [] "pull_request" (some "opened") openedPayload
      (some "dlv-9") (by decide)).2.2.2⟩

theorem comment_exists_iff (env : CredEnv) (reqs : List ApiRequest) (o rp : String)
    (n : Option Nat) (b : String) (bf : Bool) :
    (∃ o2 rp2 n2 b2, ExtCall.commentPost o2 rp2 n2 b2 ∈
      exchangeCalls env ++ reqs.map ExtCall.apiQuery ++
        (if bf then [ExtCall.commentPost o rp n b] else [])) ↔ bf = true := by
  cases bf with
  | false =>
    simp only [Bool.false_eq_true, if_false, List.append_nil, iff_false]
    rintro ⟨o2, rp2, n2, b2, hmem⟩
    rw [List.mem_append] at hmem
    rcases hmem with hmem | hmem
    · unfold exchangeCalls at hmem
      by_cases hA : exchangeAttempts env = 0
      · rw [if_pos hA] at hmem
        exact absurd hmem (List.not_mem_nil _)
      · rw [if_neg hA] at hmem
        simp at hmem
    · rcases List.mem_map.mp hmem with ⟨req, _, heq⟩
      exact absurd heq (by simp)
  | true =>
    simp only [if_true, iff_true]
    exact ⟨o, rp, n, b, by simp [List.mem_append]⟩

/-- C3: for a merged PR with a working client, both scope queries are always
attempted (a failing scope never aborts the other); each scope contributes
the records of its query result, an erroring scope contributing the empty
list; the overall bypassFound flag is true exactly when at least one scope
contributed a non-empty filtered record list, equivalently when the merged
total across scopes is non-zero; and a comment is posted exactly when
bypassFound is true. -/
theorem C3_overall_iff (w : World) (pr : PullRequest)
    (hsha : jsTruthy pr.merge_commit_sha = true)
    (hok : ∃ c, (createOctokitClient w.credEnv).1 = .ok c) :
    ExtCall.apiQuery (orgRequest (ownerOf pr) none pr.base.ref) ∈
      (handlePullRequestClosed w pr).calls ∧
    ExtCall.apiQuery (repoRequest (ownerOf pr) (repoOf pr) pr.base.ref) ∈
      (handlePullRequestClosed w pr).calls ∧
    (handlePullRequestClosed w pr).orgSuites =
      scopeSuites (checkOrgBypassedRulesSuites (ownerOf pr) none w.remote pr.base.ref
        (jsStr pr.merge_commit_sha)).result ∧
    (handlePullRequestClosed w pr).repoSuites =
      scopeSuites (checkRepoBypassedRuleSuites (ownerOf pr) (repoOf pr) w.remote pr.base.ref
        (jsStr pr.merge_commit_sha)).result ∧
    ((handlePullRequestClosed w pr).bypassFound = true ↔
      ((handlePullRequestClosed w pr).orgSuites ≠ [] ∨
        (handlePullRequestClosed w pr).repoSuites ≠ [])) ∧
    ((handlePullRequestClosed w pr).bypassFound = true ↔
      (handlePullRequestClosed w pr).orgSuites.length +
        (handlePullRequestClosed w pr).repoSuites.length ≠ 0) ∧
    ((∃ o rp n b, ExtCall.commentPost o rp n b ∈ (handlePullRequestClosed w pr).calls) ↔
      (handlePullRequestClosed w pr).bypassFound = true) := by
  obtain ⟨c, hc⟩ := hok
  have hne : ¬(jsTruthy pr.merge_commit_sha = false) := by simp [hsha]
  unfold handlePullRequestClosed
  rw [if_neg hne, hc]
  refine ⟨?_, ?_, rfl, rfl, ?_, ?_, ?_⟩
  · simp [checkOrgBypassedRulesSuites, checkRepoBypassedRuleSuites, List.mem_append]
  · simp [checkOrgBypassedRulesSuites, checkRepoBypassedRuleSuites, List.mem_append]
  · simp only [Bool.or_eq_true, Bool.not_eq_true', Bool.eq_false_iff, Ne, List.isEmpty_iff]
  · simp only [Bool.or_eq_true, Bool.not_eq_true', Bool.eq_false_iff, Ne, Nat.add_eq_zero,
      List.length_eq_zero, List.isEmpty_iff, not_and_or]
  · exact comment_exists_iff w.credEnv _ _ _ _ _ _

/-- C3 witness: the split world, whose organisation query fails with 404 and
whose repository query returns two records matching the merge commit of PR
42: bypassFound is true, the organisation scope contributes the empty list,
the repository scope contributes both records, and the overall flag agrees
with the non-emptiness of the scopes. -/
theorem C3_witness :
    jsTruthy mergedPR.merge_commit_sha = true ∧
    (handlePullRequestClosed splitWorld mergedPR).bypassFound = true ∧
    (handlePullRequestClosed splitWorld mergedPR).orgSuites = [] ∧
    (handlePullRequestClosed splitWorld mergedPR).repoSuites =
      [recordDeadbeef1, recordDeadbeef2] ∧
    ((handlePullRequestClosed splitWorld mergedPR).bypassFound = true ↔
      ((handlePullRequestClosed splitWorld mergedPR).orgSuites ≠ [] ∨
        (handlePullRequestClosed splitWorld mergedPR).repoSuites ≠ [])) :=
  ⟨by decide, by decide, by decide, by decide,
    (C3_overall_iff splitWorld mergedPR (by decide)
      ⟨⟨"ghs_tok", "https://api.github.com"⟩, rfl⟩).2.2.2.2.1⟩

/-- C10 witness: on the concrete opened, non-merged payload the handler
attempts no external call. -/
theorem C10_witness :
    validateRuleset mergedPR = true ∧
    handlePullRequest trivialWorld (some openedPayload) = [] :=
  ⟨C10_bypass_branch_unreachable.1 mergedPR,
    C10_bypass_branch_unreachable.2 trivialWorld openedPayload
      ⟨some 1, some false, none, ⟨"main", ⟨"acme/widgets"⟩⟩⟩ rfl (by decide)⟩

end BypassChecker
